import Mathlib

/-!
# Verification of the donation-backend account and referral logic

Shallow embedding of the authentication state machine (register, email
verification, login with lockout, Google OAuth sign-in, forgot/reset
password, resend verification) and the referral engine
(code generation, apply, share) of the donation backend, together with
the `protect` bearer-authentication middleware.

The document store is modelled as a list of user records; `findOne`
becomes `List.find?` and mongoose `save` becomes an update-by-id map.
External collaborators (bcryptjs, the JWT library, the mail transporter)
are modelled by their contracts: hashing is an injective tagging
function, a presented JWT is modelled by its decoded outcome, and mail
dispatch is recorded as a list of (recipient, subject) pairs.
-/

namespace Donation

/-- Model of the external bcryptjs collaborator: hashing with a salt and
work factor is abstracted to an injective tagging of the password. -/
def bcryptHash (password : String) : String :=
  "bcrypt$" ++ password

/-- Model of `bcrypt.compare`: succeeds exactly when the supplied
password is the one that produced the stored hash. -/
def bcryptCompare (password hash : String) : Bool :=
  hash == bcryptHash password

/-- A stored User document, following the mongoose schema in
`src/models/User.js` plus the `facebookId` path that `loginUser` reads
(the schema does not declare it, so it is `none` on every document the
system creates). Times are milliseconds since the epoch, as in
`Date.now()`. -/
structure UserRec where
  id : Nat
  name : String
  email : String
  password : String
  profilePicture : String
  isVerified : Bool
  googleId : Option String
  facebookId : Option String
  sawabPoints : Nat
  referralCode : Option String
  referredBy : Option Nat
  referralCount : Nat
  verificationToken : Option String
  verificationTokenExpiry : Option Nat
  resetPasswordToken : Option String
  resetPasswordExpiry : Option Nat
  loginAttempts : Nat
  accountLocked : Bool
  lastLogin : Option Nat
deriving DecidableEq

/-- The user schema in `src/models/User.js` declares no `role` path, so
`user.role` is `undefined` on every document mongoose returns. -/
def role (_ : UserRec) : Option String := none

/-- The users collection. -/
abbrev DB := List UserRec

/-- `User.findOne({ email })`. -/
def findByEmail (db : DB) (email : String) : Option UserRec :=
  db.find? (fun u => u.email == email)

/-- `User.findById(id)`. -/
def findById (db : DB) (id : Nat) : Option UserRec :=
  db.find? (fun u => u.id == id)

/-- `User.findOne({ verificationToken: token })`. -/
def findByVerificationToken (db : DB) (token : String) : Option UserRec :=
  db.find? (fun u => u.verificationToken == some token)

/-- `User.findOne({ resetPasswordToken: token, resetPasswordExpiry: { $gt: Date.now() } })`:
the expiry comparison fails when the field is absent. -/
def findByResetToken (db : DB) (token : String) (now : Nat) : Option UserRec :=
  db.find? (fun u =>
    u.resetPasswordToken == some token &&
    match u.resetPasswordExpiry with
    | some e => decide (now < e)
    | none => false)

/-- `User.findOne({ referralCode: code })`. -/
def findByReferralCode (db : DB) (code : String) : Option UserRec :=
  db.find? (fun u => u.referralCode == some code)

/-- `user.save()`: persist the mutated document, replacing the stored
document with the same `_id`. -/
def saveUser (db : DB) (u : UserRec) : DB :=
  db.map (fun v => if v.id = u.id then u else v)

/-- The JSON response a handler sends: either an error body with its
HTTP status and `message`, or a success body with its HTTP status. -/
inductive Outcome where
  | err (status : Nat) (message : String)
  | ok (status : Nat)
deriving DecidableEq

/-- HTTP status of a response. -/
def Outcome.statusOf : Outcome → Nat
  | .err s _ => s
  | .ok s => s

/-- A dispatched email, as (recipient, subject). -/
abbrev Mail := String × String

/-- `register` from the auth controller (`POST /auth/register`).
`verificationToken` is the hex string `crypto.randomBytes(32)` produced
for this request, `newId` the `_id` the store assigns. An absent body
field arrives as `""` (falsy, like `undefined`). -/
def register (db : DB) (name email password verificationToken : String)
    (now newId : Nat) : Outcome × DB × List Mail :=
  if email = "" ∨ password = "" then
    (.err 400 "Please provide email and password", db, [])
  else
    match findByEmail db email with
    | some _ => (.err 400 "User already exists", db, [])
    | none =>
      let u : UserRec :=
        { id := newId
          name := name
          email := email
          password := bcryptHash password
          profilePicture := ""
          isVerified := false
          googleId := none
          facebookId := none
          sawabPoints := 0
          referralCode := none
          referredBy := none
          referralCount := 0
          verificationToken := some verificationToken
          verificationTokenExpiry := some (now + 24 * 60 * 60 * 1000)
          resetPasswordToken := none
          resetPasswordExpiry := none
          loginAttempts := 0
          accountLocked := false
          lastLogin := none }
      (.ok 201, db ++ [u], [(email, "Verify your email address")])

/-- `verifyEmail` from the auth controller (`GET /auth/verify-email/:token`).
Sets `isVerified` and clears `verificationToken`; it does not touch
`verificationTokenExpiry`. -/
def verifyEmail (db : DB) (token : String) : Outcome × DB :=
  match findByVerificationToken db token with
  | none => (.err 400 "Invalid verification token", db)
  | some user =>
    let user2 := { user with isVerified := true, verificationToken := none }
    (.ok 200, saveUser db user2)

/-- The locked-account error message of `loginUser`. -/
def lockedMsg : String :=
  "Your account has been locked due to too many failed login attempts. Please reset your password or contact support."

/-- The unverified-email error message of `loginUser`. -/
def unverifiedMsg : String :=
  "Please verify your email before logging in. A new verification email has been sent."

/-- `loginUser` from the auth controller (`POST /auth/login`).
`freshToken` is the hex string `crypto.randomBytes(32)` the unverified
branch would generate for the resent verification mail. -/
def loginUser (db : DB) (email password freshToken : String) (now : Nat) :
    Outcome × DB × List Mail :=
  match findByEmail db email with
  | none => (.err 400 "Invalid credentials", db, [])
  | some user =>
    if user.accountLocked then
      (.err 401 lockedMsg, db, [])
    else if !user.isVerified && user.googleId.isNone && user.facebookId.isNone then
      let user2 :=
        { user with
          verificationToken := some freshToken
          verificationTokenExpiry := some (now + 24 * 60 * 60 * 1000) }
      (.err 401 unverifiedMsg, saveUser db user2,
        [(email, "Verify your email address")])
    else if !bcryptCompare password user.password then
      let attempts := user.loginAttempts + 1
      let user2 :=
        if 5 ≤ attempts then
          { user with loginAttempts := attempts, accountLocked := true }
        else
          { user with loginAttempts := attempts }
      (.err 400 "Invalid credentials", saveUser db user2, [])
    else
      let user2 := { user with loginAttempts := 0, lastLogin := some now }
      (.ok 200, saveUser db user2, [])

/-- The payload Google's token verification yields for a valid ID token
(the OAuth client is an external collaborator; `googleLogin` runs only
after it succeeded). -/
structure GooglePayload where
  email : String
  name : String
  picture : String
  sub : String
  email_verified : Bool
deriving DecidableEq

/-- `googleLogin` from the auth controller (`POST /auth/google`), from
the point where the ID token verified and yielded `p`. `newId` is the
`_id` the store would assign to a fresh document and
`randomPasswordHash` the bcrypt hash of the random placeholder
password. -/
def googleLogin (db : DB) (p : GooglePayload) (newId : Nat)
    (randomPasswordHash : String) : Outcome × DB :=
  match findByEmail db p.email with
  | some user =>
    if user.googleId.isNone then
      if !user.isVerified && p.email_verified then
        (.ok 200,
          saveUser (saveUser db { user with googleId := some p.sub })
            { user with googleId := some p.sub, isVerified := true })
      else
        (.ok 200, saveUser db { user with googleId := some p.sub })
    else
      if !user.isVerified && p.email_verified then
        (.ok 200, saveUser db { user with isVerified := true })
      else
        (.ok 200, db)
  | none =>
    let u : UserRec :=
      { id := newId
        name := p.name
        email := p.email
        password := randomPasswordHash
        profilePicture := p.picture
        isVerified := p.email_verified
        googleId := some p.sub
        facebookId := none
        sawabPoints := 0
        referralCode := none
        referredBy := none
        referralCount := 0
        verificationToken := none
        verificationTokenExpiry := none
        resetPasswordToken := none
        resetPasswordExpiry := none
        loginAttempts := 0
        accountLocked := false
        lastLogin := none }
    (.ok 200, db ++ [u])

/-- `forgotPassword` from the auth controller (`POST /auth/forgot-password`). -/
def forgotPassword (db : DB) (email resetToken : String) (now : Nat) :
    Outcome × DB × List Mail :=
  match findByEmail db email with
  | none => (.err 404 "User not found", db, [])
  | some user =>
    let user2 :=
      { user with
        resetPasswordToken := some resetToken
        resetPasswordExpiry := some (now + 60 * 60 * 1000) }
    (.ok 200, saveUser db user2, [(email, "Password Reset Request")])

/-- `resetPassword` from the auth controller (`POST /auth/reset-password`). -/
def resetPassword (db : DB) (token password : String) (now : Nat) : Outcome × DB :=
  match findByResetToken db token now with
  | none => (.err 400 "Invalid or expired reset token", db)
  | some user =>
    let user2 :=
      { user with
        password := bcryptHash password
        resetPasswordToken := none
        resetPasswordExpiry := none }
    (.ok 200, saveUser db user2)

/-- `resendVerificationEmail` from the auth controller
(`POST /auth/resend-verification`). It rotates `verificationToken` only
(not the expiry). -/
def resendVerificationEmail (db : DB) (email newToken : String) :
    Outcome × DB × List Mail :=
  if email = "" then (.err 400 "Email is required", db, [])
  else
    match findByEmail db email with
    | none => (.err 404 "User not found", db, [])
    | some user =>
      if user.isVerified then (.err 400 "Email is already verified", db, [])
      else
        let user2 := { user with verificationToken := some newToken }
        (.ok 200, saveUser db user2, [(email, "Verify your email address")])

/-- The candidate a single round of `generateReferralCode` builds from
the user id fragment and three random bytes rendered as hex: strip
non-alphanumerics, uppercase, truncate to 8. -/
def mkReferralCandidate (userIdStr randomHex : String) : String :=
  String.mk ((((userIdStr.take 6) ++ randomHex).toList.filter
    (fun c => c.isAlphanum)).map Char.toUpper) |>.take 8

/-- `generateReferralCode` from the referral controller: retry on
collision. The recursion consumes one random draw per round; an
exhausted draw stream models the (never observed) case where every
round collides and the original recursion never returns. -/
def generateReferralCode (db : DB) (userIdStr : String) :
    List String → Option String
  | [] => none
  | r :: rest =>
    let code := mkReferralCandidate userIdStr r
    if (findByReferralCode db code).isSome then
      generateReferralCode db userIdStr rest
    else
      some code

/-- `getReferralInfo` from the referral controller (`GET /referral`),
lazily generating the caller's referral code. A missing caller document
makes the original throw on property access, caught as a 500. -/
def getReferralInfo (db : DB) (callerId : Nat) (randomDraws : List String) :
    Outcome × DB :=
  match findById db callerId with
  | none => (.err 500 "Server error", db)
  | some user =>
    match user.referralCode with
    | some _ => (.ok 200, db)
    | none =>
      match generateReferralCode db (toString user.id) randomDraws with
      | none => (.err 500 "Server error", db)
      | some code => (.ok 200, saveUser db { user with referralCode := some code })

/-- `applyReferralCode` from the referral controller
(`POST /referral/apply`). Two separate document saves, referrer first. -/
def applyReferralCode (db : DB) (callerId : Nat) (referralCode : String) :
    Outcome × DB :=
  match findByReferralCode db referralCode with
  | none => (.err 404 "Invalid referral code", db)
  | some referrer =>
    if referrer.id = callerId then
      (.err 400 "You cannot refer yourself", db)
    else
      match findById db callerId with
      | none => (.err 500 "Server error", db)
      | some currentUser =>
        if currentUser.referredBy.isSome then
          (.err 400 "You have already used a referral code", db)
        else
          let referrer2 :=
            { referrer with
              sawabPoints := referrer.sawabPoints + 5
              referralCount := referrer.referralCount + 1 }
          let db1 := saveUser db referrer2
          let currentUser2 :=
            { currentUser with
              referredBy := some referrer.id
              sawabPoints := currentUser.sawabPoints + 2 }
          (.ok 200, saveUser db1 currentUser2)

/-- `shareReferralLink` from the referral controller
(`POST /referral/share`). -/
def shareReferralLink (db : DB) (callerId : Nat) : Outcome × DB :=
  match findById db callerId with
  | none => (.err 500 "Server error", db)
  | some user =>
    (.ok 200, saveUser db { user with sawabPoints := user.sawabPoints + 2 })

/-- `getSawabPoints` from the referral controller (`GET /referral/points`):
read-only. -/
def getSawabPoints (db : DB) (callerId : Nat) : Outcome × DB :=
  match findById db callerId with
  | none => (.err 500 "Server error", db)
  | some _ => (.ok 200, db)

/-- Outcome of the `protect` middleware: deny with a status and message,
or attach the user and call the route handler. -/
inductive AuthOutcome where
  | denied (status : Nat) (message : String)
  | granted (user : UserRec)
deriving DecidableEq

/-- The `protect` middleware (`src/middleware/auth.js`). The JWT library
is an external collaborator, so the presented credential is modelled by
its decoded outcome: `none` when no token was presented (neither header
nor cookie), `some none` when `jwt.verify` throws, and `some (some id)`
for a valid token whose subject is `id`. -/
def protect (db : DB) (presented : Option (Option Nat)) : AuthOutcome :=
  match presented with
  | none => .denied 401 "Not authorized to access this route"
  | some none => .denied 401 "Not authorized to access this route"
  | some (some id) =>
    match findById db id with
    | none => .denied 401 "User not found"
    | some user =>
      if !user.isVerified && !(role user == some "admin") then
        .denied 401 "Email not verified"
      else
        .granted user

/-- The six bearer-authenticated routes: `GET /auth/me`,
`PUT /auth/profile`, and the four referral routes. -/
inductive ProtectedRoute where
  | me
  | profile
  | referralInfo
  | referralApply
  | referralShare
  | referralPoints
deriving DecidableEq

/-- `getCurrentUser` from the auth controller (`GET /auth/me`):
read-only. -/
def getCurrentUser (db : DB) (callerId : Nat) : Outcome × DB :=
  match findById db callerId with
  | none => (.ok 200, db)
  | some _ => (.ok 200, db)

/-- Modelled from the spec: the `updateProfile` controller is absent
from the sources; the spec lists `PUT /auth/profile` only as
"(bearer auth) → 200 user (collaborator — not detailed here)", so the
granted branch answers 200. Every claim about this route concerns only
the denied branch of `protect`, which runs before it. -/
def updateProfile (db : DB) (_caller : UserRec) : Outcome × DB :=
  (.ok 200, db)

/-- A bearer-authenticated route as wired in `routes/auth.js` and
`routes/referralRoutes.js`: `protect` runs first; only when it grants
does the handler run. `body` carries the referral code for
`POST /referral/apply`; `randomDraws` feeds lazy code generation. -/
def dispatchProtected (route : ProtectedRoute) (db : DB)
    (presented : Option (Option Nat)) (body : String)
    (randomDraws : List String) : Nat × DB :=
  match protect db presented with
  | .denied s _ => (s, db)
  | .granted user =>
    match route with
    | .me => ((getCurrentUser db user.id).1.statusOf, (getCurrentUser db user.id).2)
    | .profile => ((updateProfile db user).1.statusOf, (updateProfile db user).2)
    | .referralInfo =>
      ((getReferralInfo db user.id randomDraws).1.statusOf,
        (getReferralInfo db user.id randomDraws).2)
    | .referralApply =>
      ((applyReferralCode db user.id body).1.statusOf,
        (applyReferralCode db user.id body).2)
    | .referralShare =>
      ((shareReferralLink db user.id).1.statusOf, (shareReferralLink db user.id).2)
    | .referralPoints =>
      ((getSawabPoints db user.id).1.statusOf, (getSawabPoints db user.id).2)

/-! ## Request sequences -/

/-- One inbound state-changing request, carrying the request-scoped
randomness (generated tokens, assigned ids, random draws) and the
request time as arguments. -/
inductive Op where
  | register (name email password verificationToken : String) (now newId : Nat)
  | verifyEmail (token : String)
  | login (email password freshToken : String) (now : Nat)
  | googleLogin (p : GooglePayload) (newId : Nat) (randomPasswordHash : String)
  | forgotPassword (email resetToken : String) (now : Nat)
  | resetPassword (token password : String) (now : Nat)
  | resendVerification (email newToken : String)
  | referralInfo (callerId : Nat) (randomDraws : List String)
  | referralApply (callerId : Nat) (code : String)
  | referralShare (callerId : Nat)
deriving DecidableEq

/-- The effect of one request on the stored collection. -/
def applyOp (db : DB) : Op → DB
  | .register n e p v now i => (Donation.register db n e p v now i).2.1
  | .verifyEmail t => (Donation.verifyEmail db t).2
  | .login e p f now => (loginUser db e p f now).2.1
  | .googleLogin p i r => (Donation.googleLogin db p i r).2
  | .forgotPassword e r now => (Donation.forgotPassword db e r now).2.1
  | .resetPassword t p now => (Donation.resetPassword db t p now).2
  | .resendVerification e t => (resendVerificationEmail db e t).2.1
  | .referralInfo c d => (getReferralInfo db c d).2
  | .referralApply c s => (applyReferralCode db c s).2
  | .referralShare c => (shareReferralLink db c).2

/-- Run a sequence of requests against the store. -/
def runOps (db : DB) (ops : List Op) : DB :=
  ops.foldl applyOp db

/-- The lockout invariant of one document: the failed-attempt counter
never passes 5, and a counter at 5 comes with a locked account. -/
def lockInv (u : UserRec) : Prop :=
  u.loginAttempts ≤ 5 ∧ (5 ≤ u.loginAttempts → u.accountLocked = true)

/-- The lockout invariant over the whole collection. -/
def dbInv (db : DB) : Prop := ∀ u ∈ db, lockInv u

/-! ## Sample records (used to instantiate the theorems on concrete data) -/

/-- A verified, unlocked user with a password, as stored after
registration and verification. -/
def sampleUser : UserRec :=
  { id := 1
    name := "n"
    email := "a@b.com"
    password := bcryptHash "pw"
    profilePicture := ""
    isVerified := true
    googleId := none
    facebookId := none
    sawabPoints := 0
    referralCode := none
    referredBy := none
    referralCount := 0
    verificationToken := none
    verificationTokenExpiry := none
    resetPasswordToken := none
    resetPasswordExpiry := none
    loginAttempts := 0
    accountLocked := false
    lastLogin := none }

/-- An unverified user with a pending verification token. -/
def samplePending : UserRec :=
  { sampleUser with
    id := 2
    email := "p@b.com"
    isVerified := false
    verificationToken := some "tok0"
    verificationTokenExpiry := some 99 }

/-- A second verified user, holder of a referral code. -/
def sampleReferrer : UserRec :=
  { sampleUser with
    id := 3
    email := "r@b.com"
    referralCode := some "CODE1234" }

/-- The document `register` stores for email "e@x.com", password "pw",
token "t", at time 0, with id 7. -/
def sampleRegistered : UserRec :=
  { sampleUser with
    id := 7
    email := "e@x.com"
    isVerified := false
    verificationToken := some "t"
    verificationTokenExpiry := some 86400000 }

/-- A user with a pending password reset. -/
def sampleResetting : UserRec :=
  { sampleUser with
    id := 4
    email := "q@b.com"
    resetPasswordToken := some "rst0"
    resetPasswordExpiry := some 1000
    loginAttempts := 3
    accountLocked := true }

/-! ## Helper lemmas -/

/-- A user returned by an email lookup carries that email. -/
theorem email_of_findByEmail {db : DB} {e : String} {u : UserRec}
    (h : findByEmail db e = some u) : u.email = e := by
  have hp := List.find?_some h
  exact eq_of_beq hp

/-- A user returned by an email lookup is stored. -/
theorem mem_of_findByEmail {db : DB} {e : String} {u : UserRec}
    (h : findByEmail db e = some u) : u ∈ db :=
  List.mem_of_find?_eq_some h

/-- A user returned by an id lookup is stored. -/
theorem mem_of_findById {db : DB} {i : Nat} {u : UserRec}
    (h : findById db i = some u) : u ∈ db :=
  List.mem_of_find?_eq_some h

/-- After a save, every stored document is the saved one or an
untouched document with a different id. -/
theorem mem_saveUser {db : DB} {u v : UserRec} (h : v ∈ saveUser db u) :
    v = u ∨ (v ∈ db ∧ v.id ≠ u.id) := by
  rcases List.mem_map.mp h with ⟨w, hw, hfw⟩
  by_cases hid : w.id = u.id
  · left
    rw [← hfw]
    simp [hid]
  · right
    rw [← hfw]
    simp only [hid, if_false]
    exact ⟨hw, hid⟩

/-- Saving a document whose id and email agree with the first match of
an email lookup makes the saved document the new first match. -/
theorem findByEmail_saveUser {db : DB} {e : String} {u u' : UserRec}
    (h : findByEmail db e = some u) (hid : u'.id = u.id) (he : u'.email = e) :
    findByEmail (saveUser db u') e = some u' := by
  induction db with
  | nil => simp [findByEmail] at h
  | cons w tl ih =>
    by_cases hw : w.email = e
    · have hwu : w = u := by
        have : findByEmail (w :: tl) e = some w := by
          simp [findByEmail, List.find?_cons_of_pos, hw]
        rw [this] at h
        exact (Option.some.injEq _ _ ▸ h)
      have hwid : w.id = u'.id := by rw [hwu, hid]
      simp [saveUser, findByEmail, List.find?_cons_of_pos, hwid, he]
    · have htl : findByEmail tl e = some u := by
        simpa [findByEmail, List.find?_cons_of_neg, hw] using h
      by_cases hwid : w.id = u'.id
      · simp [saveUser, findByEmail, List.find?_cons_of_pos, hwid, he]
      · have := ih htl
        simpa [saveUser, findByEmail, List.find?_cons_of_neg, hwid, hw] using this

/-! ## C1: wrong password on a verified, unlocked account -/

/-- C1: with a known, verified, unlocked account and a wrong password,
`loginUser` increments `loginAttempts` by one, sets `accountLocked`
when the new count reaches 5, persists, and answers 400
"Invalid credentials"; and once `accountLocked` is true, every later
login attempt — any password — answers 401 with the locked message and
leaves the store unchanged. -/
theorem login_wrongPassword_locks (db : DB) (email password freshToken : String)
    (now : Nat) (u : UserRec)
    (hfind : findByEmail db email = some u)
    (hlock : u.accountLocked = false)
    (hver : u.isVerified = true)
    (hpw : bcryptCompare password u.password = false) :
    (loginUser db email password freshToken now).1 =
      Outcome.err 400 "Invalid credentials" ∧
    (loginUser db email password freshToken now).2.1 =
      saveUser db
        (if 5 ≤ u.loginAttempts + 1 then
          { u with loginAttempts := u.loginAttempts + 1, accountLocked := true }
         else
          { u with loginAttempts := u.loginAttempts + 1 }) ∧
    (∀ (db2 : DB) (e2 p2 f2 : String) (n2 : Nat) (v : UserRec),
      findByEmail db2 e2 = some v → v.accountLocked = true →
      loginUser db2 e2 p2 f2 n2 = (Outcome.err 401 lockedMsg, db2, [])) := by
  refine ⟨?_, ?_, ?_⟩
  · simp [loginUser, hfind, hlock, hver, hpw]
  · simp [loginUser, hfind, hlock, hver, hpw]
  · intro db2 e2 p2 f2 n2 v hfind2 hlock2
    simp [loginUser, hfind2, hlock2]

theorem login_wrongPassword_locks_witness :
    (loginUser [sampleUser] "a@b.com" "wrong" "f" 0).1 =
      Outcome.err 400 "Invalid credentials" :=
  (login_wrongPassword_locks [sampleUser] "a@b.com" "wrong" "f" 0 sampleUser
    (by decide) (by decide) (by decide) (by decide)).1

/-! ## C8: enumeration resistance of the login failure -/

/-- C8: a login naming an unknown email and a login naming an existing
verified, unlocked user with a wrong password produce byte-identical
responses: both status 400 with message "Invalid credentials". -/
theorem login_enumeration_resistant (db1 db2 : DB) (e1 p1 f1 e2 p2 f2 : String)
    (n1 n2 : Nat) (u : UserRec)
    (h1 : findByEmail db1 e1 = none)
    (h2 : findByEmail db2 e2 = some u)
    (hlock : u.accountLocked = false)
    (hver : u.isVerified = true)
    (hpw : bcryptCompare p2 u.password = false) :
    (loginUser db1 e1 p1 f1 n1).1 = Outcome.err 400 "Invalid credentials" ∧
    (loginUser db2 e2 p2 f2 n2).1 = Outcome.err 400 "Invalid credentials" := by
  constructor
  · simp [loginUser, h1]
  · simp [loginUser, h2, hlock, hver, hpw]

theorem login_enumeration_resistant_witness :
    (loginUser [] "ghost@b.com" "x" "f" 0).1 = Outcome.err 400 "Invalid credentials" ∧
    (loginUser [sampleUser] "a@b.com" "wrong" "f" 0).1 =
      Outcome.err 400 "Invalid credentials" :=
  login_enumeration_resistant [] [sampleUser] "ghost@b.com" "x" "f" "a@b.com"
    "wrong" "f" 0 0 sampleUser (by decide) (by decide) rfl rfl (by decide)

/-! ## C3: duplicate registration -/

/-- C3 counterexample: registering an email that already belongs to a
stored user answers HTTP status 400, not the 409 the claim states. -/
theorem register_duplicate_status_cex :
    (register [sampleUser] "m" "a@b.com" "secret" "t" 0 2).1 =
      Outcome.err 400 "User already exists" ∧ (400 : Nat) ≠ 409 := by
  decide

/-- C3 (amended): registering an email that already belongs to a stored
user is rejected with status 400 and message "User already exists", and
the collection is unchanged — no new User document is created. -/
theorem register_duplicate_rejected (db : DB) (name email password vtok : String)
    (now newId : Nat) (w : UserRec)
    (hemail : email ≠ "") (hpassword : password ≠ "")
    (hdup : findByEmail db email = some w) :
    (register db name email password vtok now newId).1 =
      Outcome.err 400 "User already exists" ∧
    (register db name email password vtok now newId).2.1 = db := by
  constructor <;> simp [register, hemail, hpassword, hdup]

theorem register_duplicate_rejected_witness :
    (register [sampleUser] "m" "a@b.com" "secret" "t" 0 2).2.1 = [sampleUser] :=
  (register_duplicate_rejected [sampleUser] "m" "a@b.com" "secret" "t" 0 2
    sampleUser (by decide) (by decide) (by decide)).2

/-! ## C4: what a successful email verification clears -/

/-- C4 counterexample: a successful verification leaves
`verificationTokenExpiry` in place (here still 99 after the call), so
the two token fields are not both cleared. -/
theorem verifyEmail_expiry_not_cleared_cex :
    (verifyEmail [samplePending] "tok0").1 = Outcome.ok 200 ∧
    ((verifyEmail [samplePending] "tok0").2.map
      (fun v => v.verificationTokenExpiry)) = [some 99] := by
  decide

/-- C4 (amended): a successful verification sets `isVerified`, clears
`verificationToken`, and leaves `verificationTokenExpiry` exactly as it
was. -/
theorem verifyEmail_clears_token_only (db : DB) (token : String) (u : UserRec)
    (h : findByVerificationToken db token = some u) :
    (verifyEmail db token).1 = Outcome.ok 200 ∧
    (verifyEmail db token).2 =
      saveUser db { u with isVerified := true, verificationToken := none } ∧
    ({ u with isVerified := true,
              verificationToken := none } : UserRec).verificationTokenExpiry =
      u.verificationTokenExpiry := by
  refine ⟨?_, ?_, rfl⟩ <;> simp [verifyEmail, h]

theorem verifyEmail_clears_token_only_witness :
    (verifyEmail [samplePending] "tok0").1 = Outcome.ok 200 :=
  (verifyEmail_clears_token_only [samplePending] "tok0" samplePending
    (by decide)).1

/-! ## C5: the password-reset frame -/

/-- C5: a reset whose token matches with a live expiry replaces the
password hash, clears the reset token and expiry, and leaves every
other field — `accountLocked` and `loginAttempts` included — unchanged. -/
theorem resetPassword_frame (db : DB) (token npw : String) (now : Nat)
    (u : UserRec) (h : findByResetToken db token now = some u) :
    ∃ u' : UserRec,
      resetPassword db token npw now = (Outcome.ok 200, saveUser db u') ∧
      u'.password = bcryptHash npw ∧
      u'.resetPasswordToken = none ∧
      u'.resetPasswordExpiry = none ∧
      u'.accountLocked = u.accountLocked ∧
      u'.loginAttempts = u.loginAttempts ∧
      u'.id = u.id ∧ u'.name = u.name ∧ u'.email = u.email ∧
      u'.profilePicture = u.profilePicture ∧ u'.isVerified = u.isVerified ∧
      u'.googleId = u.googleId ∧ u'.facebookId = u.facebookId ∧
      u'.sawabPoints = u.sawabPoints ∧ u'.referralCode = u.referralCode ∧
      u'.referredBy = u.referredBy ∧ u'.referralCount = u.referralCount ∧
      u'.verificationToken = u.verificationToken ∧
      u'.verificationTokenExpiry = u.verificationTokenExpiry ∧
      u'.lastLogin = u.lastLogin := by
  refine ⟨{ u with password := bcryptHash npw, resetPasswordToken := none,
                   resetPasswordExpiry := none }, ?_, rfl, rfl, rfl, rfl, rfl,
    rfl, rfl, rfl, rfl, rfl, rfl, rfl, rfl, rfl, rfl, rfl, rfl, rfl, rfl⟩
  simp [resetPassword, h]

theorem resetPassword_frame_witness :
    (resetPassword [sampleResetting] "rst0" "new" 0).1 = Outcome.ok 200 := by
  obtain ⟨u', hmain, _⟩ :=
    resetPassword_frame [sampleResetting] "rst0" "new" 0 sampleResetting
      (by decide)
  rw [hmain]

/-! ## C2: login on an unverified account rotates the token -/

/-- An email lookup by verification token fails when no stored document
carries that token. -/
theorem findByVerificationToken_eq_none {db : DB} {t : String}
    (h : ∀ v ∈ db, v.verificationToken ≠ some t) :
    findByVerificationToken db t = none := by
  apply List.find?_eq_none.mpr
  intro v hv
  simpa using h v hv

/-- C2: a login against an existing, unlocked, unverified account with
no OAuth linkage — whatever the supplied password — overwrites the
verification token and expiry with the fresh values, persists them,
re-dispatches the verification mail, and fails 401 with the
unverified-email message; afterwards the previous token matches no
stored user. -/
theorem login_unverified_rotates_token (db : DB)
    (email password freshToken t0 : String) (now : Nat) (u : UserRec)
    (hfind : findByEmail db email = some u)
    (hlock : u.accountLocked = false)
    (hver : u.isVerified = false)
    (hg : u.googleId = none)
    (hfb : u.facebookId = none)
    (htok : u.verificationToken = some t0)
    (hfresh : freshToken ≠ t0)
    (huniq : ∀ v ∈ db, v.verificationToken = some t0 → v.id = u.id) :
    loginUser db email password freshToken now =
      (Outcome.err 401 unverifiedMsg,
        saveUser db
          { u with
            verificationToken := some freshToken
            verificationTokenExpiry := some (now + 24 * 60 * 60 * 1000) },
        [(email, "Verify your email address")]) ∧
    findByVerificationToken (loginUser db email password freshToken now).2.1 t0 =
      none := by
  have hmain : loginUser db email password freshToken now =
      (Outcome.err 401 unverifiedMsg,
        saveUser db
          { u with
            verificationToken := some freshToken
            verificationTokenExpiry := some (now + 24 * 60 * 60 * 1000) },
        [(email, "Verify your email address")]) := by
    simp [loginUser, hfind, hlock, hver, hg, hfb]
  refine ⟨hmain, ?_⟩
  rw [hmain]
  apply findByVerificationToken_eq_none
  intro v hv
  rcases mem_saveUser hv with rfl | ⟨hvdb, hvid⟩
  · intro hcontra
    exact hfresh (Option.some.inj hcontra)
  · intro hcontra
    exact hvid (huniq v hvdb hcontra)

theorem login_unverified_rotates_token_witness :
    findByVerificationToken
      (loginUser [samplePending] "p@b.com" "pw" "tok1" 7).2.1 "tok0" = none :=
  (login_unverified_rotates_token [samplePending] "p@b.com" "pw" "tok1" "tok0" 7
    samplePending (by decide) (by decide) (by decide) (by decide) (by decide)
    (by decide) (by decide) (by decide)).2

/-! ## C6: applying a referral code -/

/-- C6: a referral application whose code belongs to another user, by a
caller with no `referredBy`, credits the referrer +5 points and +1
referral count and the caller +2 points with `referredBy` set to the
referrer's id; and any application by a caller whose `referredBy` is
already set fails 400 with the already-referred message and leaves the
store unchanged. -/
theorem applyReferralCode_spec (db : DB) (callerId : Nat) (code : String)
    (r c : UserRec)
    (hr : findByReferralCode db code = some r)
    (hne : r.id ≠ callerId)
    (hc : findById db callerId = some c)
    (hfree : c.referredBy = none) :
    applyReferralCode db callerId code =
      (Outcome.ok 200,
        saveUser
          (saveUser db
            { r with sawabPoints := r.sawabPoints + 5,
                     referralCount := r.referralCount + 1 })
          { c with referredBy := some r.id,
                   sawabPoints := c.sawabPoints + 2 }) ∧
    (∀ (db2 : DB) (cid2 x : Nat) (code2 : String) (r2 c2 : UserRec),
      findByReferralCode db2 code2 = some r2 → r2.id ≠ cid2 →
      findById db2 cid2 = some c2 → c2.referredBy = some x →
      applyReferralCode db2 cid2 code2 =
        (Outcome.err 400 "You have already used a referral code", db2)) := by
  constructor
  · simp [applyReferralCode, hr, hne, hc, hfree]
  · intro db2 cid2 x code2 r2 c2 hr2 hne2 hc2 hx
    simp [applyReferralCode, hr2, hne2, hc2, hx]

theorem applyReferralCode_spec_witness :
    (applyReferralCode [sampleUser, sampleReferrer] 1 "CODE1234").1 =
      Outcome.ok 200 ∧
    applyReferralCode
        (applyReferralCode [sampleUser, sampleReferrer] 1 "CODE1234").2
        1 "CODE1234" =
      (Outcome.err 400 "You have already used a referral code",
        (applyReferralCode [sampleUser, sampleReferrer] 1 "CODE1234").2) := by
  have h := applyReferralCode_spec [sampleUser, sampleReferrer] 1 "CODE1234"
    sampleReferrer sampleUser (by decide) (by decide) (by decide) (by decide)
  refine ⟨by rw [h.1], ?_⟩
  exact h.2 (applyReferralCode [sampleUser, sampleReferrer] 1 "CODE1234").2
    1 3 "CODE1234"
    { sampleReferrer with sawabPoints := 5, referralCount := 1 }
    { sampleUser with referredBy := some 3, sawabPoints := 2 }
    (by rw [h.1]; decide) (by decide) (by rw [h.1]; decide) (by decide)

/-! ## C7: OAuth sign-in never downgrades verification -/

/-- The raise condition of the Google path forces flag values. -/
theorem flags_of_raise {a b : Bool} (h : (!a && b) = true) :
    a = false ∧ b = true := by
  cases a <;> cases b <;> simp_all

/-- When the raise condition fails, or-ing the upstream flag changes
nothing. -/
theorem or_eq_self_of_not_raise {a b : Bool} (h : ¬((!a && b) = true)) :
    a = (a || b) := by
  cases a <;> cases b <;> simp_all

/-- C7: for a Google sign-in against an existing user, the stored
`isVerified` afterwards equals the previous value or-ed with the
upstream `email_verified` flag: it stays true whenever it was true and
is only ever raised (when the upstream flag is set and the local
record was unverified). -/
theorem googleLogin_never_downgrades (db : DB) (p : GooglePayload)
    (newId : Nat) (rph : String) (u : UserRec)
    (hfind : findByEmail db p.email = some u) :
    ∃ u' : UserRec,
      findByEmail (googleLogin db p newId rph).2 p.email = some u' ∧
      u'.isVerified = (u.isVerified || p.email_verified) := by
  have he : u.email = p.email := email_of_findByEmail hfind
  by_cases hg : u.googleId.isNone = true
  · by_cases hv : (!u.isVerified && p.email_verified) = true
    · refine ⟨{ u with googleId := some p.sub, isVerified := true }, ?_, ?_⟩
      · have h1 : findByEmail (saveUser db { u with googleId := some p.sub })
            p.email = some { u with googleId := some p.sub } :=
          findByEmail_saveUser hfind rfl he
        have h2 : findByEmail
            (saveUser (saveUser db { u with googleId := some p.sub })
              { u with googleId := some p.sub, isVerified := true })
            p.email = some { u with googleId := some p.sub,
                                    isVerified := true } :=
          findByEmail_saveUser h1 rfl he
        simpa [googleLogin, hfind, hg, hv] using h2
      · obtain ⟨hnv, hev⟩ := flags_of_raise hv
        simp [hnv, hev]
    · refine ⟨{ u with googleId := some p.sub }, ?_, ?_⟩
      · have h1 : findByEmail (saveUser db { u with googleId := some p.sub })
            p.email = some { u with googleId := some p.sub } :=
          findByEmail_saveUser hfind rfl he
        simpa [googleLogin, hfind, hg, hv] using h1
      · exact or_eq_self_of_not_raise hv
  · by_cases hv : (!u.isVerified && p.email_verified) = true
    · refine ⟨{ u with isVerified := true }, ?_, ?_⟩
      · have h1 : findByEmail (saveUser db { u with isVerified := true })
            p.email = some { u with isVerified := true } :=
          findByEmail_saveUser hfind rfl he
        simpa [googleLogin, hfind, hg, hv] using h1
      · obtain ⟨hnv, hev⟩ := flags_of_raise hv
        simp [hnv, hev]
    · refine ⟨u, ?_, ?_⟩
      · simpa [googleLogin, hfind, hg, hv] using hfind
      · exact or_eq_self_of_not_raise hv

theorem googleLogin_never_downgrades_witness :
    ∃ u' : UserRec,
      findByEmail
        (googleLogin [sampleUser]
          { email := "a@b.com", name := "n", picture := "",
            sub := "g1", email_verified := false } 9 "h").2 "a@b.com" = some u' ∧
      u'.isVerified = true := by
  obtain ⟨u', h1, h2⟩ := googleLogin_never_downgrades [sampleUser]
    { email := "a@b.com", name := "n", picture := "",
      sub := "g1", email_verified := false } 9 "h" sampleUser (by decide)
  exact ⟨u', h1, by simpa using h2⟩

/-! ## C10: unverified accounts are shut out of every protected route -/

/-- C10: with a valid bearer token for a stored but unverified user,
`protect` denies 401 "Email not verified" — the admin exception is dead
code since the schema gives every user `role = none` — so each of the
six bearer-authenticated routes answers 401 and leaves the store
unchanged. -/
theorem protect_unverified_denied (db : DB) (uid : Nat) (u : UserRec)
    (hfind : findById db uid = some u)
    (hver : u.isVerified = false) :
    protect db (some (some uid)) = AuthOutcome.denied 401 "Email not verified" ∧
    (∀ v : UserRec, role v = none) ∧
    (∀ (route : ProtectedRoute) (body : String) (draws : List String),
      dispatchProtected route db (some (some uid)) body draws = (401, db)) := by
  have hp : protect db (some (some uid)) =
      AuthOutcome.denied 401 "Email not verified" := by
    simp [protect, hfind, hver, role]
  refine ⟨hp, fun v => rfl, ?_⟩
  intro route body draws
  simp [dispatchProtected, hp]

theorem protect_unverified_denied_witness :
    dispatchProtected ProtectedRoute.referralApply [samplePending]
      (some (some 2)) "CODE1234" [] = (401, [samplePending]) :=
  (protect_unverified_denied [samplePending] 2 samplePending (by decide)
    (by decide)).2.2 ProtectedRoute.referralApply "CODE1234" []

/-! ## C9: the failed-login counter stays in 0..5 -/

/-- Saving a document with the lockout invariant keeps the collection
invariant. -/
theorem dbInv_saveUser {db : DB} {u : UserRec} (hdb : dbInv db)
    (hu : lockInv u) : dbInv (saveUser db u) := by
  intro v hv
  rcases mem_saveUser hv with rfl | ⟨hvdb, _⟩
  · exact hu
  · exact hdb v hvdb

/-- Inserting a document with the lockout invariant keeps the
collection invariant. -/
theorem dbInv_append {db : DB} {u : UserRec} (hdb : dbInv db)
    (hu : lockInv u) : dbInv (db ++ [u]) := by
  intro v hv
  rcases List.mem_append.mp hv with h | h
  · exact hdb v h
  · rw [List.mem_singleton.mp h]
    exact hu

/-- A document whose counter is zero satisfies the lockout invariant. -/
theorem lockInv_of_zero {u : UserRec} (h0 : u.loginAttempts = 0) : lockInv u :=
  ⟨by omega, fun h => absurd h (by omega)⟩

theorem dbInv_register (db : DB) (n e p v : String) (now i : Nat)
    (hdb : dbInv db) : dbInv ((register db n e p v now i).2.1) := by
  unfold register
  split
  · exact hdb
  · split
    · exact hdb
    · exact dbInv_append hdb (lockInv_of_zero rfl)

theorem dbInv_verifyEmail (db : DB) (t : String) (hdb : dbInv db) :
    dbInv ((verifyEmail db t).2) := by
  unfold verifyEmail
  cases hf : findByVerificationToken db t with
  | none => exact hdb
  | some u =>
    have hu := hdb u (List.mem_of_find?_eq_some hf)
    exact dbInv_saveUser hdb ⟨hu.1, hu.2⟩

theorem dbInv_login (db : DB) (e p f : String) (now : Nat) (hdb : dbInv db) :
    dbInv ((loginUser db e p f now).2.1) := by
  unfold loginUser
  cases hf : findByEmail db e with
  | none => exact hdb
  | some u =>
    have hu : lockInv u := hdb u (List.mem_of_find?_eq_some hf)
    dsimp only
    by_cases hlock : u.accountLocked = true
    · rw [if_pos hlock]
      exact hdb
    · rw [if_neg hlock]
      by_cases hunv : (!u.isVerified && u.googleId.isNone && u.facebookId.isNone) = true
      · rw [if_pos hunv]
        exact dbInv_saveUser hdb ⟨hu.1, hu.2⟩
      · rw [if_neg hunv]
        by_cases hpw : (!bcryptCompare p u.password) = true
        · rw [if_pos hpw]
          have hla : u.loginAttempts ≤ 4 := by
            rcases hu with ⟨h1, h2⟩
            by_contra hcon
            exact hlock (h2 (by omega))
          refine dbInv_saveUser hdb ?_
          by_cases h5 : 5 ≤ u.loginAttempts + 1
          · rw [if_pos h5]
            exact ⟨show u.loginAttempts + 1 ≤ 5 by omega, fun _ => rfl⟩
          · rw [if_neg h5]
            exact ⟨show u.loginAttempts + 1 ≤ 5 by omega, fun h => absurd h h5⟩
        · rw [if_neg hpw]
          exact dbInv_saveUser hdb (lockInv_of_zero rfl)

theorem dbInv_googleLogin (db : DB) (p : GooglePayload) (i : Nat) (r : String)
    (hdb : dbInv db) : dbInv ((googleLogin db p i r).2) := by
  unfold googleLogin
  cases hf : findByEmail db p.email with
  | none => exact dbInv_append hdb (lockInv_of_zero rfl)
  | some u =>
    have hu : lockInv u := hdb u (List.mem_of_find?_eq_some hf)
    dsimp only
    by_cases hg : u.googleId.isNone = true
    · rw [if_pos hg]
      by_cases hv : (!u.isVerified && p.email_verified) = true
      · rw [if_pos hv]
        exact dbInv_saveUser (dbInv_saveUser hdb ⟨hu.1, hu.2⟩) ⟨hu.1, hu.2⟩
      · rw [if_neg hv]
        exact dbInv_saveUser hdb ⟨hu.1, hu.2⟩
    · rw [if_neg hg]
      by_cases hv : (!u.isVerified && p.email_verified) = true
      · rw [if_pos hv]
        exact dbInv_saveUser hdb ⟨hu.1, hu.2⟩
      · rw [if_neg hv]
        exact hdb

theorem dbInv_forgotPassword (db : DB) (e r : String) (now : Nat)
    (hdb : dbInv db) : dbInv ((forgotPassword db e r now).2.1) := by
  unfold forgotPassword
  cases hf : findByEmail db e with
  | none => exact hdb
  | some u =>
    have hu := hdb u (List.mem_of_find?_eq_some hf)
    exact dbInv_saveUser hdb ⟨hu.1, hu.2⟩

theorem dbInv_resetPassword (db : DB) (t p : String) (now : Nat)
    (hdb : dbInv db) : dbInv ((resetPassword db t p now).2) := by
  unfold resetPassword
  cases hf : findByResetToken db t now with
  | none => exact hdb
  | some u =>
    have hu := hdb u (List.mem_of_find?_eq_some hf)
    exact dbInv_saveUser hdb ⟨hu.1, hu.2⟩

theorem dbInv_resendVerification (db : DB) (e t : String) (hdb : dbInv db) :
    dbInv ((resendVerificationEmail db e t).2.1) := by
  unfold resendVerificationEmail
  split
  · exact hdb
  · cases hf : findByEmail db e with
    | none => exact hdb
    | some u =>
      have hu := hdb u (List.mem_of_find?_eq_some hf)
      dsimp only
      by_cases hver : u.isVerified = true
      · rw [if_pos hver]
        exact hdb
      · rw [if_neg hver]
        exact dbInv_saveUser hdb ⟨hu.1, hu.2⟩

theorem dbInv_referralInfo (db : DB) (c : Nat) (d : List String)
    (hdb : dbInv db) : dbInv ((getReferralInfo db c d).2) := by
  unfold getReferralInfo
  cases hf : findById db c with
  | none => exact hdb
  | some u =>
    have hu := hdb u (List.mem_of_find?_eq_some hf)
    dsimp only
    cases hcode : u.referralCode with
    | some x => exact hdb
    | none =>
      cases hg : generateReferralCode db (toString u.id) d with
      | none => exact hdb
      | some code => exact dbInv_saveUser hdb ⟨hu.1, hu.2⟩

theorem dbInv_referralApply (db : DB) (c : Nat) (s : String) (hdb : dbInv db) :
    dbInv ((applyReferralCode db c s).2) := by
  unfold applyReferralCode
  cases hf : findByReferralCode db s with
  | none => exact hdb
  | some r =>
    have hr := hdb r (List.mem_of_find?_eq_some hf)
    dsimp only
    by_cases hid : r.id = c
    · rw [if_pos hid]
      exact hdb
    · rw [if_neg hid]
      cases hc : findById db c with
      | none => exact hdb
      | some cu =>
        have hcu := hdb cu (List.mem_of_find?_eq_some hc)
        dsimp only
        by_cases hrb : cu.referredBy.isSome = true
        · rw [if_pos hrb]
          exact hdb
        · rw [if_neg hrb]
          exact dbInv_saveUser (dbInv_saveUser hdb ⟨hr.1, hr.2⟩) ⟨hcu.1, hcu.2⟩

theorem dbInv_referralShare (db : DB) (c : Nat) (hdb : dbInv db) :
    dbInv ((shareReferralLink db c).2) := by
  unfold shareReferralLink
  cases hf : findById db c with
  | none => exact hdb
  | some u =>
    have hu := hdb u (List.mem_of_find?_eq_some hf)
    exact dbInv_saveUser hdb ⟨hu.1, hu.2⟩

/-- Every request preserves the lockout invariant of the collection. -/
theorem dbInv_applyOp (db : DB) (op : Op) (hdb : dbInv db) :
    dbInv (applyOp db op) := by
  cases op with
  | register n e p v now i => exact dbInv_register db n e p v now i hdb
  | verifyEmail t => exact dbInv_verifyEmail db t hdb
  | login e p f now => exact dbInv_login db e p f now hdb
  | googleLogin p i r => exact dbInv_googleLogin db p i r hdb
  | forgotPassword e r now => exact dbInv_forgotPassword db e r now hdb
  | resetPassword t p now => exact dbInv_resetPassword db t p now hdb
  | resendVerification e t => exact dbInv_resendVerification db e t hdb
  | referralInfo c d => exact dbInv_referralInfo db c d hdb
  | referralApply c s => exact dbInv_referralApply db c s hdb
  | referralShare c => exact dbInv_referralShare db c hdb

/-- Request sequences preserve the lockout invariant. -/
theorem dbInv_runOps (db : DB) (ops : List Op) (hdb : dbInv db) :
    dbInv (runOps db ops) := by
  induction ops generalizing db with
  | nil => exact hdb
  | cons op rest ih => exact ih _ (dbInv_applyOp db op hdb)

/-- C9: starting from an empty store, after any sequence of requests
every stored user's `loginAttempts` lies between 0 and 5 inclusive
(and a counter at 5 always comes with a locked account). -/
theorem loginAttempts_in_range (ops : List Op) (u : UserRec)
    (hu : u ∈ runOps [] ops) :
    0 ≤ u.loginAttempts ∧ u.loginAttempts ≤ 5 ∧
    (5 ≤ u.loginAttempts → u.accountLocked = true) := by
  have hinv : dbInv (runOps [] ops) :=
    dbInv_runOps [] ops (by intro v hv; exact absurd hv (List.not_mem_nil v))
  exact ⟨Nat.zero_le _, (hinv u hu).1, (hinv u hu).2⟩

theorem loginAttempts_in_range_witness :
    0 ≤ sampleRegistered.loginAttempts ∧ sampleRegistered.loginAttempts ≤ 5 ∧
    (5 ≤ sampleRegistered.loginAttempts → sampleRegistered.accountLocked = true) :=
  loginAttempts_in_range [Op.register "n" "e@x.com" "pw" "t" 0 7]
    sampleRegistered (by decide)

end Donation
